import Mathlib

/-!
Verification of the learning-raiders authentication pipeline against its
natural-language specification.  The definitions below are a shallow
embedding of the TypeScript sources:

* `src/screens/LoginScreen.tsx` (`handleAuthResponse`, the enhanced flow),
* `src/unnamed/part_000` (`handleLoginSuccess`, the simple variant),
* `src/services/firebaseClient.ts` (`ensureUserDoc`),
* `src/providers/AuthProvider.tsx` (the `onAuthStateChanged` subscriber),
* `import_roster.js` (the bulk roster loader).

Firestore documents are modelled as association lists of field/value pairs,
`setDoc` with `merge: true` as a fold of single-field updates, and the
asynchronous handlers as pure functions over an explicit state record that
also accumulates an observable trace (network calls, sign-outs, writes,
alerts, console records).
-/

namespace LR

/-- A Firestore field value: either a string or a server timestamp
(modelled with a logical clock value). -/
inductive FsValue
  | str (s : String)
  | ts (n : Nat)
deriving Repr, DecidableEq

/-- A Firestore document: an association list of field name / value pairs. -/
abbrev Doc := List (String × FsValue)

/-- Field lookup in a document (first binding wins). -/
def docGet (d : Doc) (k : String) : Option FsValue :=
  match d with
  | [] => none
  | (k', v) :: rest => if k' = k then some v else docGet rest k

/-- Set one field of a document, replacing an existing binding in place or
appending a new one. -/
def docSet (d : Doc) (k : String) (v : FsValue) : Doc :=
  match d with
  | [] => [(k, v)]
  | (k', v') :: rest => if k' = k then (k', v) :: rest else (k', v') :: docSet rest k v

/-- `setDoc(..., fields, { merge: true })` onto an existing document: every
written field replaces its binding, all other fields are kept. -/
def mergeWrite (d : Doc) (fields : List (String × FsValue)) : Doc :=
  fields.foldl (fun acc kv => docSet acc kv.1 kv.2) d

/-- A Firestore collection keyed by document id. -/
abbrev Store := List (String × Doc)

/-- Document lookup in a collection. -/
def storeGet (s : Store) (k : String) : Option Doc :=
  match s with
  | [] => none
  | (k', d) :: rest => if k' = k then some d else storeGet rest k

/-- Replace (or create) a whole document. -/
def storeSet (s : Store) (k : String) (d : Doc) : Store :=
  match s with
  | [] => [(k, d)]
  | (k', d') :: rest => if k' = k then (k', d) :: rest else (k', d') :: storeSet rest k d

/-- A merge write against a collection: merge onto the existing document,
or onto the empty document when none exists. -/
def storeMerge (s : Store) (k : String) (fields : List (String × FsValue)) : Store :=
  storeSet s k (mergeWrite ((storeGet s k).getD []) fields)

/-- JavaScript `a || b` for an optional string `a`: `undefined`/`null` and
the empty string are falsy and select `b`. -/
def jsOr (a : Option String) (b : String) : String :=
  match a with
  | some s => if s = "" then b else s
  | none => b

/-- JavaScript truthiness test `!x` for an optional string: true exactly for
`undefined`/`null` and `""`. -/
def strFalsy (a : Option String) : Bool :=
  match a with
  | some s => s = ""
  | none => true

/-- ASCII lower-casing of one character (the inputs of this flow are ASCII
email addresses and roster fields). -/
def lcChar (c : Char) : Char :=
  if 'A' ≤ c ∧ c ≤ 'Z' then Char.ofNat (c.toNat + 32) else c

/-- JavaScript `toLowerCase()` restricted to ASCII. -/
def jsToLower (s : String) : String := String.mk (s.data.map lcChar)

/-- An ASCII whitespace character. -/
def isSpaceChar (c : Char) : Bool := c = ' ' || c = '\t' || c = '\n' || c = '\r'

/-- JavaScript `trim()` restricted to ASCII whitespace. -/
def jsTrim (s : String) : String :=
  String.mk (((s.data.dropWhile isSpaceChar).reverse.dropWhile isSpaceChar).reverse)

theorem docGet_docSet_self (d : Doc) (k : String) (v : FsValue) :
    docGet (docSet d k v) k = some v := by
  induction d with
  | nil => simp [docSet, docGet]
  | cons hd tl ih =>
      by_cases h : hd.1 = k
      · simp [docSet, docGet, h]
      · simp [docSet, docGet, h, ih]

theorem docGet_docSet_ne (d : Doc) (k k' : String) (v : FsValue) (h : k ≠ k') :
    docGet (docSet d k v) k' = docGet d k' := by
  induction d with
  | nil => simp [docSet, docGet, h]
  | cons hd tl ih =>
      by_cases h2 : hd.1 = k
      · simp [docSet, docGet, h2, h]
      · simp [docSet, docGet, h2, ih]

/-- Fields not named in a merge write keep their previous value. -/
theorem docGet_mergeWrite_not_written (fields : List (String × FsValue)) (d : Doc)
    (k : String) (h : k ∉ fields.map Prod.fst) :
    docGet (mergeWrite d fields) k = docGet d k := by
  induction fields generalizing d with
  | nil => simp [mergeWrite]
  | cons hd tl ih =>
      simp only [List.map_cons, List.mem_cons] at h
      push_neg at h
      have : mergeWrite d (hd :: tl) = mergeWrite (docSet d hd.1 hd.2) tl := by
        simp [mergeWrite, List.foldl]
      rw [this, ih _ h.2, docGet_docSet_ne _ _ _ _ (fun he => h.1 he.symm)]

theorem storeGet_storeSet_self (s : Store) (k : String) (d : Doc) :
    storeGet (storeSet s k d) k = some d := by
  induction s with
  | nil => simp [storeSet, storeGet]
  | cons hd tl ih =>
      by_cases h : hd.1 = k
      · simp [storeSet, storeGet, h]
      · simp [storeSet, storeGet, h, ih]

theorem storeGet_storeMerge_self (s : Store) (k : String)
    (fields : List (String × FsValue)) :
    storeGet (storeMerge s k fields) k
      = some (mergeWrite ((storeGet s k).getD []) fields) := by
  simp [storeMerge, storeGet_storeSet_self]

/-!
SHA-256 and URL-safe base64, used to state the PKCE round-trip property.
The derivation itself is performed by the `expo-auth-session` dependency
(`useAuthRequest` with `usePKCE: true` and `codeChallengeMethod: S256` in
`LoginScreen.tsx`), whose source is not part of this repository, so the
algorithm is implemented here from the specification (§4.2): the code
challenge is the URL-safe base64 encoding of the SHA-256 digest of the
verifier.  Words are 32-bit values represented as `Nat` reduced mod `2^32`.
-/

/-- Rotate a 32-bit word right by `n` positions. -/
def rotr32 (n x : Nat) : Nat := ((x >>> n) ||| (x <<< (32 - n))) % 2 ^ 32

/-- 32-bit modular addition. -/
def add32 (a b : Nat) : Nat := (a + b) % 2 ^ 32

/-- 32-bit bitwise complement. -/
def not32 (x : Nat) : Nat := x ^^^ 0xffffffff

/-- SHA-256 `Ch` function. -/
def chF (x y z : Nat) : Nat := (x &&& y) ^^^ (not32 x &&& z)

/-- SHA-256 `Maj` function. -/
def majF (x y z : Nat) : Nat := (x &&& y) ^^^ (x &&& z) ^^^ (y &&& z)

/-- SHA-256 `Σ0`. -/
def bigSigma0 (x : Nat) : Nat := rotr32 2 x ^^^ rotr32 13 x ^^^ rotr32 22 x

/-- SHA-256 `Σ1`. -/
def bigSigma1 (x : Nat) : Nat := rotr32 6 x ^^^ rotr32 11 x ^^^ rotr32 25 x

/-- SHA-256 `σ0`. -/
def smallSigma0 (x : Nat) : Nat := rotr32 7 x ^^^ rotr32 18 x ^^^ (x >>> 3)

/-- SHA-256 `σ1`. -/
def smallSigma1 (x : Nat) : Nat := rotr32 17 x ^^^ rotr32 19 x ^^^ (x >>> 10)

/-- SHA-256 round constants. -/
def shaK : List Nat :=
  [1116352408, 1899447441, 3049323471, 3921009573, 961987163, 1508970993,
   2453635748, 2870763221, 3624381080, 310598401, 607225278, 1426881987,
   1925078388, 2162078206, 2614888103, 3248222580, 3835390401, 4022224774,
   264347078, 604807628, 770255983, 1249150122, 1555081692, 1996064986,
   2554220882, 2821834349, 2952996808, 3210313671, 3336571891, 3584528711,
   113926993, 338241895, 666307205, 773529912, 1294757372, 1396182291,
   1695183700, 1986661051, 2177026350, 2456956037, 2730485921, 2820302411,
   3259730800, 3345764771, 3516065817, 3600352804, 4094571909, 275423344,
   430227734, 506948616, 659060556, 883997877, 958139571, 1322822218,
   1537002063, 1747873779, 1955562222, 2024104815, 2227730452, 2361852424,
   2428436474, 2756734187, 3204031479, 3329325298]

/-- SHA-256 initial hash state. -/
def shaH0 : List Nat :=
  [1779033703, 3144134277, 1013904242, 2773480762, 1359893119,
   2600822924, 528734635, 1541459225]

/-- Merkle–Damgård padding: append `0x80`, zero bytes, and the 8-byte
big-endian bit length, reaching a multiple of 64 bytes. -/
def padMessage (msg : List Nat) : List Nat :=
  let L := msg.length
  let zeros := (64 + 55 - L % 64) % 64
  msg ++ [0x80] ++ List.replicate zeros 0 ++
    (List.range 8).map (fun i => ((L * 8) >>> ((7 - i) * 8)) % 256)

/-- Big-endian assembly of 32-bit words from bytes. -/
def bytesToWords : List Nat → List Nat
  | b0 :: b1 :: b2 :: b3 :: rest =>
      (((b0 * 256 + b1) * 256 + b2) * 256 + b3) :: bytesToWords rest
  | _ => []

/-- Split a list into chunks of `n + 1` elements (structural recursion on a
fuel argument so the definition evaluates by kernel reduction; `fuel ≥ length`
always suffices since every step drops at least one element). -/
def chunksOfAux (n : Nat) : Nat → List α → List (List α)
  | 0, _ => []
  | _, [] => []
  | fuel + 1, x :: xs =>
      (x :: xs).take (n + 1) :: chunksOfAux n fuel ((x :: xs).drop (n + 1))

/-- Split a list into chunks of `n + 1` elements. -/
def chunksOf (n : Nat) (xs : List α) : List (List α) :=
  chunksOfAux n xs.length xs

/-- Extend a 16-word block to the 64-word message schedule. -/
def schedule (block : List Nat) : List Nat :=
  (List.range 48).foldl
    (fun w _ =>
      let t := w.length
      w ++ [add32 (add32 (smallSigma1 (w.getD (t - 2) 0)) (w.getD (t - 7) 0))
                  (add32 (smallSigma0 (w.getD (t - 15) 0)) (w.getD (t - 16) 0))])
    block

/-- One SHA-256 round on the working state `[a,b,c,d,e,f,g,h]`. -/
def roundFn (st : List Nat) (kw : Nat × Nat) : List Nat :=
  match st with
  | [a, b, c, d, e, f, g, h] =>
      let t1 := add32 h (add32 (bigSigma1 e) (add32 (chF e f g) (add32 kw.1 kw.2)))
      let t2 := add32 (bigSigma0 a) (majF a b c)
      [add32 t1 t2, a, b, c, add32 d t1, e, f, g]
  | other => other

/-- Compress one 16-word block into the hash state. -/
def compressBlock (h : List Nat) (block : List Nat) : List Nat :=
  let st := (shaK.zip (schedule block)).foldl roundFn h
  List.zipWith add32 h st

/-- Big-endian serialization of 32-bit words to bytes. -/
def wordsToBytes (ws : List Nat) : List Nat :=
  ws.foldr
    (fun w acc =>
      ((w >>> 24) % 256) :: ((w >>> 16) % 256) :: ((w >>> 8) % 256) :: (w % 256) :: acc)
    []

/-- SHA-256 digest of a byte sequence. -/
def sha256 (msg : List Nat) : List Nat :=
  wordsToBytes ((chunksOf 15 (bytesToWords (padMessage msg))).foldl compressBlock shaH0)

/-- The URL-safe base64 alphabet (RFC 4648 §5). -/
def b64Char (n : Nat) : Char :=
  ("ABCDEFGHIJKLMNOPQRSTUVWXYZabcdefghijklmnopqrstuvwxyz0123456789-_").toList.getD n 'A'

/-- URL-safe base64 without padding (as used for PKCE challenges, RFC 7636). -/
def base64UrlEncode : List Nat → String
  | [] => ""
  | [b0] =>
      String.mk [b64Char (b0 >>> 2), b64Char ((b0 &&& 3) <<< 4)]
  | [b0, b1] =>
      String.mk [b64Char (b0 >>> 2), b64Char (((b0 &&& 3) <<< 4) ||| (b1 >>> 4)),
                 b64Char ((b1 &&& 15) <<< 2)]
  | b0 :: b1 :: b2 :: rest =>
      String.mk [b64Char (b0 >>> 2), b64Char (((b0 &&& 3) <<< 4) ||| (b1 >>> 4)),
                 b64Char (((b1 &&& 15) <<< 2) ||| (b2 >>> 6)), b64Char (b2 &&& 63)]
        ++ base64UrlEncode rest

/-- Bytes of an ASCII string (PKCE verifiers are ASCII by RFC 7636). -/
def strBytes (s : String) : List Nat := s.toList.map Char.toNat

/-- Modelled from the spec: the PKCE Request Builder (§4.2) is implemented
inside the `expo-auth-session` dependency (`useAuthRequest` with
`usePKCE: true` and `codeChallengeMethod: S256` in `LoginScreen.tsx`), whose
source is not part of this repository.  Per the spec, the request stores a
code verifier and an expected state, and the code challenge is the URL-safe
base64 encoding of the SHA-256 digest of the verifier. -/
structure AuthRequestModel where
  codeVerifier : String
  codeChallenge : String
  expectedState : String
deriving Repr, DecidableEq

/-- Modelled from the spec: building the authorization request from a fresh
verifier and state token (§4.2). -/
def buildAuthRequest (verifier st : String) : AuthRequestModel :=
  { codeVerifier := verifier
  , codeChallenge := base64UrlEncode (sha256 (strBytes verifier))
  , expectedState := st }

/-- Known-answer test: SHA-256 of the empty message. -/
theorem sha256_empty_kat :
    sha256 [] =
      [0xe3, 0xb0, 0xc4, 0x42, 0x98, 0xfc, 0x1c, 0x14,
       0x9a, 0xfb, 0xf4, 0xc8, 0x99, 0x6f, 0xb9, 0x24,
       0x27, 0xae, 0x41, 0xe4, 0x64, 0x9b, 0x93, 0x4c,
       0xa4, 0x95, 0x99, 0x1b, 0x78, 0x52, 0xb8, 0x55] := by
  decide

/-- Known-answer test: SHA-256 of `"abc"`. -/
theorem sha256_abc_kat :
    sha256 (strBytes "abc") =
      [0xba, 0x78, 0x16, 0xbf, 0x8f, 0x01, 0xcf, 0xea,
       0x41, 0x41, 0x40, 0xde, 0x5d, 0xae, 0x22, 0x23,
       0xb0, 0x03, 0x61, 0xa3, 0x96, 0x17, 0x7a, 0x9c,
       0xb4, 0x10, 0xff, 0x61, 0xf2, 0x00, 0x15, 0xad] := by
  decide

/-!
Data model of the sign-in flow (`LoginScreen.tsx`, `firebaseClient.ts`,
`AuthProvider.tsx`).
-/

/-- The Firebase user returned by `signInWithCredential`. -/
structure MsUser where
  uid : String
  email : Option String
  displayName : Option String
deriving Repr, DecidableEq

/-- The fields of a roster document that the flow reads
(`rosterData.name` / `.role` / `.grade`); each may be absent. -/
structure RosterData where
  name : Option String
  role : Option String
  grade : Option String
deriving Repr, DecidableEq

/-- Outcome of the `exchangeCodeAsync` network call: a token response
(either token may be absent) or a rejection carrying an error message. -/
inductive ExchangeOutcome
  | tokens (idToken : Option String) (accessToken : Option String)
  | failed (msg : String)
deriving Repr, DecidableEq

/-- Outcome of `signInWithCredential`. -/
inductive SignInOutcome
  | ok (user : MsUser)
  | failed (msg : String)
deriving Repr, DecidableEq

/-- The environment of one delivery of an auth response: the surrounding
component state (`state` memo, `discovery?.tokenEndpoint`,
`request?.codeVerifier`) and the behavior of the external collaborators
(token endpoint, Firebase auth, roster store, server clock). -/
structure Env where
  expectedState : String
  tokenEndpoint : Option String
  codeVerifier : Option String
  exchangeResult : ExchangeOutcome
  signInResult : SignInOutcome
  roster : String → Option RosterData
  now : Nat

/-- The redirected auth response as seen by the handler: `response.type`
(a string: `"success"`, `"dismiss"`, `"error"`, ...) and the parameters the
handler reads. -/
structure AuthResponse where
  rtype : String
  code : Option String
  state : Option String
  errParam : Option String
  errDescription : Option String
deriving Repr, DecidableEq

/-- Observable effects accumulated by a run: network calls, Firebase
sign-ins/sign-outs, roster reads, profile writes issued by the login screens,
`ensureUserDoc` writes issued by the `AuthProvider` listener, alerts, and the
failure-related console records. -/
structure Trace where
  exchangeCalls : List (String × String)
  signInCalls : Nat
  signOutCalls : Nat
  rosterReads : List String
  profileWrites : List (String × List (String × FsValue))
  ensureWrites : List String
  alerts : List (String × String)
  logs : List String
deriving Repr, DecidableEq

/-- Mutable state threaded through the flow: React component state (`busy`,
`error`), the `processedCodesRef` set, the Firebase auth session, the `users`
collection, the navigation target, and the trace. -/
structure FlowState where
  busy : Bool
  errorMsg : Option String
  processedCodes : List String
  session : Option String
  users : Store
  navigatedTo : Option String
  trace : Trace
deriving Repr, DecidableEq

/-- The empty trace. -/
def emptyTrace : Trace :=
  { exchangeCalls := [], signInCalls := 0, signOutCalls := 0, rosterReads := []
  , profileWrites := [], ensureWrites := [], alerts := [], logs := [] }

/-- Initial flow state: idle screen, empty processed-code set, no session,
empty `users` collection. -/
def initFS : FlowState :=
  { busy := false, errorMsg := none, processedCodes := [], session := none
  , users := [], navigatedTo := none, trace := emptyTrace }

/-- Append a console record to the trace. -/
def logAdd (fs : FlowState) (msg : String) : FlowState :=
  { fs with trace := { fs.trace with logs := msg :: fs.trace.logs } }

/-- Fields written by `ensureUserDoc` (`firebaseClient.ts`): uid, the email
lower-cased then trimmed, `displayName || ''`, and a fresh `lastLoginAt`. -/
def ensureUserDocFields (u : MsUser) (now : Nat) : List (String × FsValue) :=
  [ ("uid", .str u.uid)
  , ("email", .str (jsTrim (jsToLower (u.email.getD ""))))
  , ("displayName", .str (jsOr u.displayName ""))
  , ("lastLoginAt", .ts now) ]

/-- `ensureUserDoc` (`firebaseClient.ts`), as run by the `AuthProvider`'s
`onAuthStateChanged` subscriber when it observes a signed-in user: a merge
write of `ensureUserDocFields` at `users/{uid}`, skipped when the uid is
falsy. -/
def applyEnsureUserDoc (u : MsUser) (now : Nat) (fs : FlowState) : FlowState :=
  if u.uid = "" then fs
  else
    { fs with
      users := storeMerge fs.users u.uid (ensureUserDocFields u now)
      trace := { fs.trace with ensureWrites := u.uid :: fs.trace.ensureWrites } }

/-- Fields of the roster-hit profile write in `LoginScreen.tsx`
(lines 252–264): `displayName: rosterData.name || user.displayName || ""`,
`role: rosterData.role || "student"`, `grade: rosterData.grade || ""`,
`guildId: (rosterData.grade || "").toLowerCase()`, fresh `lastLoginAt`. -/
def profileWriteFields (u : MsUser) (email : String) (rd : RosterData)
    (now : Nat) : List (String × FsValue) :=
  [ ("uid", .str u.uid)
  , ("email", .str email)
  , ("displayName", .str (jsOr rd.name (jsOr u.displayName "")))
  , ("role", .str (jsOr rd.role "student"))
  , ("grade", .str (jsOr rd.grade ""))
  , ("guildId", .str (jsToLower (jsOr rd.grade "")))
  , ("lastLoginAt", .ts now) ]

/-- The non-success branch of `handleAuthResponse` (`LoginScreen.tsx`
lines 110–137): the error text chosen for a response whose type is not
`"success"`. -/
def classifyNonSuccess (resp : AuthResponse) : String :=
  let errorCode := resp.errParam.getD ""
  let errorDescription := resp.errDescription.getD ""
  if errorCode = "AADSTS50011" then
    "Redirect URI mismatch — make sure your Azure app includes this domain."
  else if errorCode = "AADSTS50020" then
    "Please sign in with your @sagesshs.edu.lb account only."
  else if resp.rtype = "dismiss" then
    "Sign-in was cancelled. Please try again."
  else if resp.rtype = "error" then
    "Authentication error: "
      ++ jsOr (some errorDescription) (jsOr (some errorCode) "Unknown error")
  else
    jsOr (some errorDescription)
      (jsOr (some errorCode) ("Authentication failed (" ++ resp.rtype ++ ")."))

/-- Result of the synchronous part of the success branch, up to the `await`
of `exchangeCodeAsync`: a normal early return, a thrown error, or readiness
to perform the exchange with the given code and verifier. -/
inductive PhaseOut
  | halted (fs : FlowState)
  | thrown (msg : String) (fs : FlowState)
  | ready (code : String) (verifier : String) (fs : FlowState)
deriving Repr, DecidableEq

/-- `handleAuthResponse` success branch, synchronous part (`LoginScreen.tsx`
lines 140–182): set busy, clear the error, extract `code` and `state`, throw
on a missing code, throw on a state mismatch, short-circuit on a duplicate
code, optimistically add the code to `processedCodesRef`, then validate the
discovery endpoint and the PKCE verifier. -/
def correlatePhase (env : Env) (resp : AuthResponse) (fs0 : FlowState) : PhaseOut :=
  let fs := { fs0 with busy := true, errorMsg := none }
  match resp.code with
  | none =>
      .thrown "No authorization code received from Microsoft."
        (logAdd fs "[Auth] No authorization code in response params:")
  | some code =>
      if resp.state ≠ some env.expectedState then
        .thrown "Invalid authentication state - possible security issue."
          (logAdd fs "[Auth] State mismatch:")
      else if code ∈ fs.processedCodes then
        .halted { (logAdd fs "[Auth] Duplicate code detected - ignoring.") with busy := false }
      else
        let fs := { fs with processedCodes := code :: fs.processedCodes }
        match env.tokenEndpoint with
        | none =>
            .thrown "Microsoft discovery failed - unable to get token endpoint."
              (logAdd fs "[Auth] Discovery failed:")
        | some _ =>
            match env.codeVerifier with
            | none =>
                .thrown "PKCE verification failed - missing code verifier."
                  (logAdd fs "[Auth] PKCE verification missing:")
            | some v => .ready code v fs

/-- `handleAuthResponse` success branch from the `exchangeCodeAsync` call on
(`LoginScreen.tsx` lines 186–270): the exchange, the token-presence check,
`signInWithCredential` (upon which the `AuthProvider` listener fires and runs
`ensureUserDoc`), email normalization, the roster gate, the profile merge
write, clearing `processedCodesRef`, and navigation.  Returns the thrown
message, if any, with the state at that point. -/
def exchangePhase (env : Env) (code verifier : String) (fs0 : FlowState) :
    Option String × FlowState :=
  let fs := { fs0 with
    trace := { fs0.trace with exchangeCalls := (code, verifier) :: fs0.trace.exchangeCalls } }
  match env.exchangeResult with
  | .failed msg => (some msg, fs)
  | .tokens idToken accessToken =>
      if strFalsy idToken && strFalsy accessToken then
        (some "No authentication tokens received from Microsoft.", fs)
      else
        let fs := { fs with trace := { fs.trace with signInCalls := fs.trace.signInCalls + 1 } }
        match env.signInResult with
        | .failed msg => (some msg, fs)
        | .ok user =>
            let fs := { fs with session := some user.uid }
            let fs := applyEnsureUserDoc user env.now fs
            let email := user.email.map (fun s => jsToLower (jsTrim s))
            if strFalsy email then
              let fs := { fs with
                session := none
                trace := { fs.trace with signOutCalls := fs.trace.signOutCalls + 1 } }
              (some "No email found in Microsoft account.", fs)
            else
              let e := email.getD ""
              let fs := { fs with
                trace := { fs.trace with rosterReads := e :: fs.trace.rosterReads } }
              match env.roster e with
              | none =>
                  let fs := { fs with
                    session := none
                    trace := { fs.trace with
                      signOutCalls := fs.trace.signOutCalls + 1
                      alerts :=
                        ("Access Denied",
                         "Account " ++ e ++ " is not in the roster.\nPlease contact your administrator.")
                          :: fs.trace.alerts } }
                  (none, { fs with busy := false })
              | some rd =>
                  let flds := profileWriteFields user e rd env.now
                  let fs := { fs with
                    users := storeMerge fs.users user.uid flds
                    trace := { fs.trace with
                      profileWrites := (user.uid, flds) :: fs.trace.profileWrites } }
                  (none, { fs with processedCodes := [], navigatedTo := some "WorldMap" })

/-- The `catch`/`finally` of `handleAuthResponse` (`LoginScreen.tsx`
lines 272–281): a thrown error is logged and surfaced via
`setError(err?.message || "Authentication failed. Please try again.")`;
`finally` always clears the busy flag. -/
def finishTry (out : Option String × FlowState) : FlowState :=
  match out with
  | (some msg, fs) =>
      let fs := logAdd fs "[Auth] Error during authentication:"
      { fs with errorMsg := some (jsOr (some msg) "Authentication failed. Please try again.")
              , busy := false }
  | (none, fs) => { fs with busy := false }

/-- One delivery of an auth response to `handleAuthResponse`
(`LoginScreen.tsx` lines 109–282). -/
def handleAuthResponse (env : Env) (resp : AuthResponse) (fs : FlowState) : FlowState :=
  if resp.rtype = "success" then
    finishTry
      (match correlatePhase env resp fs with
       | .halted fs' => (none, fs')
       | .thrown msg fs' => (some msg, fs')
       | .ready code v fs' => exchangePhase env code v fs')
  else
    { fs with errorMsg := some (classifyNonSuccess resp) }

/-- Two deliveries of the same response in rapid succession.  When the first
delivery reaches the token exchange it suspends at the `await`; being
single-threaded, the runtime then handles the second delivery to completion
before the first resumes with the exchange result and runs its
`catch`/`finally`.  When the first delivery never reaches the exchange, the
second simply runs after it. -/
def rapidDoubleDelivery (env : Env) (resp : AuthResponse) (fs : FlowState) : FlowState :=
  if resp.rtype = "success" then
    match correlatePhase env resp fs with
    | .ready code v fs1 =>
        finishTry (exchangePhase env code v (handleAuthResponse env resp fs1))
    | .halted fs1 => handleAuthResponse env resp (finishTry (none, fs1))
    | .thrown msg fs1 => handleAuthResponse env resp (finishTry (some msg, fs1))
  else
    handleAuthResponse env resp (handleAuthResponse env resp fs)

/-- Fields of the roster-hit profile write in the simple variant
(`src/unnamed/part_000`, lines 198–209); unlike the enhanced screen it writes
no `guildId`. -/
def simpleProfileFields (u : MsUser) (email : String) (rd : RosterData)
    (now : Nat) : List (String × FsValue) :=
  [ ("uid", .str u.uid)
  , ("email", .str email)
  , ("displayName", .str (jsOr rd.name (jsOr u.displayName "")))
  , ("role", .str (jsOr rd.role "student"))
  , ("grade", .str (jsOr rd.grade ""))
  , ("lastLoginAt", .ts now) ]

/-- `handleLoginSuccess` from the simple variant (`src/unnamed/part_000`,
lines 157–218): no state check, no deduplication, email only lower-cased
(never trimmed), no `signOut` on any failure path, `catch` surfaces
`err.message || "Login failed"`, and on success the loading flag is never
reset.  The `AuthProvider` sibling of this variant (`src/unnamed/part_001`)
reads cached credentials from AsyncStorage and runs no `ensureUserDoc`
listener, so none is modelled here. -/
def handleLoginSuccess (env : Env) (code : String) (fs0 : FlowState) : FlowState :=
  let fs := { fs0 with busy := true, errorMsg := none }
  let out : Option String × FlowState :=
    let fs := { fs with
      trace := { fs.trace with
        exchangeCalls := (code, env.codeVerifier.getD "") :: fs.trace.exchangeCalls } }
    match env.exchangeResult with
    | .failed msg => (some msg, fs)
    | .tokens _ _ =>
        let fs := { fs with trace := { fs.trace with signInCalls := fs.trace.signInCalls + 1 } }
        match env.signInResult with
        | .failed msg => (some msg, fs)
        | .ok user =>
            let fs := { fs with session := some user.uid }
            let email := user.email.map (fun s => jsToLower s)
            if strFalsy email then
              (some "No email found", fs)
            else
              let e := email.getD ""
              let fs := { fs with
                trace := { fs.trace with rosterReads := e :: fs.trace.rosterReads } }
              match env.roster e with
              | none => (some "Account not authorized", fs)
              | some rd =>
                  let flds := simpleProfileFields user e rd env.now
                  (none,
                   { fs with
                     users := storeMerge fs.users user.uid flds
                     trace := { fs.trace with
                       profileWrites := (user.uid, flds) :: fs.trace.profileWrites }
                     navigatedTo := some "WorldMap" })
  match out with
  | (some msg, fs') =>
      { fs' with errorMsg := some (jsOr (some msg) "Login failed"), busy := false }
  | (none, fs') => fs'

/-!
The bulk roster loader (`import_roster.js`).
-/

/-- A parsed CSV row (`Papa.parse` with `header: true`): each column may be
absent. -/
structure CsvRow where
  email : Option String
  name : Option String
  role : Option String
  grade : Option String
deriving Repr, DecidableEq

/-- `normEmail`: `(s || '').trim().toLowerCase()`. -/
def normEmail (s : Option String) : String := jsToLower (jsTrim (s.getD ""))

/-- `normStr`: `(s || '').toString().trim()`. -/
def normStr (s : Option String) : String := jsTrim (s.getD "")

/-- A normalized roster row produced by `toDoc`. -/
structure RowDoc where
  email : String
  name : String
  role : String
  grade : String
deriving Repr, DecidableEq

/-- `toDoc` (`import_roster.js` lines 36–47): normalize the email, the name,
`role || 'student'` and `grade || ''`. -/
def toDoc (row : CsvRow) : RowDoc :=
  { email := normEmail row.email
  , name := normStr row.name
  , role := normStr (some (jsOr row.role "student"))
  , grade := normStr (some (jsOr row.grade "")) }

/-- `parsed.data.map(toDoc).filter((r) => r.email)` (`import_roster.js`
line 62): rows whose normalized email is empty are excluded before any
processing. -/
def loadRows (rows : List CsvRow) : List RowDoc :=
  (rows.map toDoc).filter (fun r => r.email != "")

/-- The three import modes selected by the command line. -/
inductive Mode
  | skipExisting
  | updateChanged
  | upsert
deriving Repr, DecidableEq

/-- The per-run counters printed at the end. -/
structure Counters where
  created : Nat
  updated : Nat
  skipped : Nat
  unchanged : Nat
deriving Repr, DecidableEq

/-- The zero counters. -/
def zeroCounters : Counters :=
  { created := 0, updated := 0, skipped := 0, unchanged := 0 }

/-- A buffered write of a Firestore batch: a full document set (the create
path) or a merge set. -/
inductive BatchOp
  | setNew (key : String) (d : Doc)
  | setMergeOp (key : String) (fields : List (String × FsValue))
deriving Repr, DecidableEq

/-- A row's fields as written to its roster document (`{...row}` spread). -/
def rowFields (r : RowDoc) : List (String × FsValue) :=
  [("email", .str r.email), ("name", .str r.name),
   ("role", .str r.role), ("grade", .str r.grade)]

/-- One comparison `(a[k] ?? '') !== (b[k] ?? '')` of `shallowEqual`, where
the stored field may be absent (compared as `''`), a string, or a timestamp
object (never strictly equal to a string). -/
def eqField (v : Option FsValue) (s : String) : Bool :=
  match v with
  | none => s == ""
  | some (.str t) => t == s
  | some (.ts _) => false

/-- `shallowEqual(existing, row, ['name','role','grade','email'])`
(`import_roster.js` lines 49–54). -/
def shallowEqual (existing : Doc) (r : RowDoc) : Bool :=
  eqField (docGet existing "name") r.name &&
  eqField (docGet existing "role") r.role &&
  eqField (docGet existing "grade") r.grade &&
  eqField (docGet existing "email") r.email

/-- Processing of one row inside a chunk (`import_roster.js` lines 79–137):
the snapshot read goes against the store as of the start of the chunk
(batched writes commit only at the end of the chunk), counters are bumped in
every mode, and batch writes are buffered unless in dry-run. -/
def processRow (mode : Mode) (dryRun : Bool) (readStore : Store) (now : Nat)
    (acc : Counters × List BatchOp) (r : RowDoc) : Counters × List BatchOp :=
  let c := acc.1
  let ops := acc.2
  match storeGet readStore r.email with
  | none =>
      ({ c with created := c.created + 1 },
       if dryRun then ops
       else ops ++ [.setNew r.email (rowFields r ++ [("importedAt", .ts now)])])
  | some existing =>
      match mode with
      | .skipExisting => ({ c with skipped := c.skipped + 1 }, ops)
      | .updateChanged =>
          if shallowEqual existing r then
            ({ c with unchanged := c.unchanged + 1 }, ops)
          else
            ({ c with updated := c.updated + 1 },
             if dryRun then ops
             else ops ++ [.setMergeOp r.email (rowFields r ++ [("updatedAt", .ts now)])])
      | .upsert =>
          ({ c with updated := c.updated + 1 },
           if dryRun then ops
           else ops ++ [.setMergeOp r.email (rowFields r ++ [("upsertedAt", .ts now)])])

/-- Apply one committed batch write to the store. -/
def applyOp (s : Store) : BatchOp → Store
  | .setNew k d => storeSet s k d
  | .setMergeOp k fields => storeMerge s k fields

/-- One chunk: process its rows against the chunk-start store, then commit
the batch unless in dry-run. -/
def runChunk (mode : Mode) (dryRun : Bool) (now : Nat)
    (acc : Store × Counters) (chunk : List RowDoc) : Store × Counters :=
  let s := acc.1
  let out := chunk.foldl (processRow mode dryRun s now) (acc.2, [])
  (if dryRun then s else out.2.foldl applyOp s, out.1)

/-- The whole import run (`run()` in `import_roster.js`): normalize and
filter the CSV rows, split them into chunks of 450, and process each chunk. -/
def runImport (mode : Mode) (dryRun : Bool) (now : Nat) (s : Store)
    (csv : List CsvRow) : Store × Counters :=
  (chunksOf 449 (loadRows csv)).foldl (runChunk mode dryRun now) (s, zeroCounters)

/-!
Concrete scenarios used by counterexamples and witnesses.
-/

/-- A concrete verified Microsoft identity. -/
def janeUser : MsUser :=
  { uid := "u1", email := some "jane@sagesshs.edu.lb", displayName := some "Jane" }

/-- A sign-in environment whose roster store is empty (every lookup misses),
with a verified Microsoft identity for Jane. -/
def envMiss : Env :=
  { expectedState := "st7", tokenEndpoint := some "https://tok"
  , codeVerifier := some "ver"
  , exchangeResult := .tokens (some "idtok") none
  , signInResult := .ok janeUser
  , roster := fun _ => none, now := 7 }

/-- The same environment with a failing token exchange. -/
def envExchangeFail : Env := { envMiss with exchangeResult := .failed "invalid_grant" }

/-- The same environment with a roster hit for Jane. -/
def envHit : Env :=
  { envMiss with
    roster := fun e =>
      if e = "jane@sagesshs.edu.lb" then
        some { name := some "", role := some "teacher", grade := some "7" }
      else none }

/-- A successful redirect response carrying code `"c1"` and the expected
state. -/
def respOk : AuthResponse :=
  { rtype := "success", code := some "c1", state := some "st7"
  , errParam := none, errDescription := none }

/-!
C9.  Known tenant-restriction error code.
-/

/-- C9: for every provider redirect whose type is not `"success"` and whose
`error` parameter is the known tenant-restriction code `AADSTS50020`, the
handler surfaces the domain-restriction message (not the raw code), changes
nothing else, and performs no network call. -/
theorem c9_tenant_restriction_message (env : Env) (resp : AuthResponse)
    (fs : FlowState) (h1 : resp.rtype ≠ "success")
    (h2 : resp.errParam = some "AADSTS50020") :
    handleAuthResponse env resp fs
        = { fs with errorMsg := some "Please sign in with your @sagesshs.edu.lb account only." }
      ∧ "Please sign in with your @sagesshs.edu.lb account only." ≠ "AADSTS50020" := by
  constructor
  · simp [handleAuthResponse, h1, classifyNonSuccess, h2]
  · decide

/-- C9 witness: a concrete `error`-type redirect carrying `AADSTS50020` is
classified to the domain-restriction message. -/
theorem c9_witness :
    handleAuthResponse envMiss
        { rtype := "error", code := none, state := none
        , errParam := some "AADSTS50020", errDescription := some "tenant restricted" }
        initFS
      = { initFS with
          errorMsg := some "Please sign in with your @sagesshs.edu.lb account only." }
      ∧ "Please sign in with your @sagesshs.edu.lb account only." ≠ "AADSTS50020" :=
  c9_tenant_restriction_message envMiss
    { rtype := "error", code := none, state := none
    , errParam := some "AADSTS50020", errDescription := some "tenant restricted" }
    initFS (by decide) (by decide)

/-!
Counterexample inputs shared with the amended theorems' witnesses.
-/

/-- A success response with a missing code and a non-matching state. -/
def respNoCodeBadState : AuthResponse :=
  { rtype := "success", code := none, state := some "WRONG"
  , errParam := none, errDescription := none }

/-- A success response carrying a code but a non-matching state. -/
def respBadState : AuthResponse :=
  { rtype := "success", code := some "c1", state := some "WRONG"
  , errParam := none, errDescription := none }

/-- The sign-in environment of the simple variant where the verified identity
carries no email. -/
def envNoEmail : Env :=
  { envMiss with signInResult := .ok { uid := "u2", email := none, displayName := some "D" } }

/-- C1 counterexample: in the concrete roster-miss attempt (`envMiss`, empty
roster), a `users/u1` profile record written during the attempt by the
`AuthProvider`'s `ensureUserDoc` on observing the Firebase sign-in is still
present when the attempt ends — the flow retains a UserProfile record, so the
claim is false. -/
theorem c1_counterexample_profile_retained :
    envMiss.roster "jane@sagesshs.edu.lb" = none
      ∧ storeGet (handleAuthResponse envMiss respOk initFS).users "u1"
          = some [ ("uid", .str "u1")
                 , ("email", .str "jane@sagesshs.edu.lb")
                 , ("displayName", .str "Jane")
                 , ("lastLoginAt", .ts 7) ]
      ∧ storeGet (handleAuthResponse envMiss respOk initFS).users "u1" ≠ none := by
  decide

/-- C3 counterexample: after a concrete delivery whose token exchange fails
(`invalid_grant`), the code `"c1"` is still in the processed-code set — it is
not removed — and redelivering the same code is blocked (no further exchange
call), so the claimed invariant is false. -/
theorem c3_counterexample_failed_code_not_removed :
    envExchangeFail.exchangeResult = .failed "invalid_grant"
      ∧ (handleAuthResponse envExchangeFail respOk initFS).processedCodes = ["c1"]
      ∧ (handleAuthResponse envExchangeFail respOk initFS).errorMsg = some "invalid_grant"
      ∧ (handleAuthResponse envExchangeFail respOk
            (handleAuthResponse envExchangeFail respOk initFS)).trace.exchangeCalls
          = (handleAuthResponse envExchangeFail respOk initFS).trace.exchangeCalls := by
  decide

/-- C4 counterexample: a concrete success response whose state does not match
the expected state but which carries no code is rejected with the
missing-code failure, not a state-mismatch failure (no exchange call is made
either way), so the claim as stated is false. -/
theorem c4_counterexample_missing_code_precedence :
    respNoCodeBadState.state ≠ some envMiss.expectedState
      ∧ (handleAuthResponse envMiss respNoCodeBadState initFS).errorMsg
          = some "No authorization code received from Microsoft."
      ∧ (handleAuthResponse envMiss respNoCodeBadState initFS).errorMsg
          ≠ some "Invalid authentication state - possible security issue."
      ∧ (handleAuthResponse envMiss respNoCodeBadState initFS).trace.exchangeCalls = [] := by
  decide

/-- C6 counterexample: a roster hit whose record carries an empty `name`
field overwrites an existing richer stored display name — here the stored
`"Rich Name"` becomes `""` (the identity's display name is also absent) — so
the claim's display-name-preservation conjunct is false. -/
theorem c6_counterexample_display_name_overwritten :
    docGet
        (mergeWrite [("displayName", .str "Rich Name")]
          (profileWriteFields { uid := "u1", email := some "j@x", displayName := none }
            "j@x" { name := some "", role := some "teacher", grade := some "7" } 3))
        "displayName"
      = some (.str "")
      ∧ some (FsValue.str "") ≠ some (FsValue.str "Rich Name") := by
  decide

/-- C7 counterexample: in the simple variant (`handleLoginSuccess`), a
verified identity without an email yields the `No email found` failure while
the Firebase session is left established — no sign-out happens — so the
claim's every-variant sign-out conjunct is false. -/
theorem c7_counterexample_simple_variant_no_signout :
    (handleLoginSuccess envNoEmail "cB" initFS).errorMsg = some "No email found"
      ∧ (handleLoginSuccess envNoEmail "cB" initFS).trace.signOutCalls = 0
      ∧ (handleLoginSuccess envNoEmail "cB" initFS).session = some "u2" := by
  decide

/-- C8 counterexample: on a concrete state-mismatch response, the text
surfaced to the user is the raw failure detail
(`Invalid authentication state - possible security issue.`), not the generic
`Authentication failed. Please try again.` message, so the claim is false. -/
theorem c8_counterexample_detail_surfaced :
    (handleAuthResponse envMiss respBadState initFS).errorMsg
        = some "Invalid authentication state - possible security issue."
      ∧ some "Invalid authentication state - possible security issue."
          ≠ some "Authentication failed. Please try again."
      ∧ (handleAuthResponse envMiss respBadState initFS).trace.logs
          = ["[Auth] Error during authentication:", "[Auth] State mismatch:"] := by
  decide

/-- The token-exchange network call is recorded exactly once by
`exchangePhase`, whatever the exchange, sign-in and roster outcomes. -/
theorem exchangePhase_exchangeCalls (env : Env) (c v : String) (fs : FlowState) :
    (exchangePhase env c v fs).2.trace.exchangeCalls = (c, v) :: fs.trace.exchangeCalls := by
  unfold exchangePhase applyEnsureUserDoc
  repeat' split <;> try simp_all

/-- The `catch`/`finally` step never records a network call. -/
theorem finishTry_exchangeCalls (out : Option String × FlowState) :
    (finishTry out).trace.exchangeCalls = out.2.trace.exchangeCalls := by
  rcases out with ⟨msg, fs⟩
  cases msg <;> simp [finishTry, logAdd]

/-!
C2.  Duplicate delivery of the same success response.
-/

/-- C2: delivering the same success response (same code, matching state)
twice in rapid succession — the second delivery being handled while the first
awaits `exchangeCodeAsync` — performs exactly one code-for-token exchange,
and the second delivery is an idempotent no-op: run on the first delivery's
post-deduplication state it changes nothing except the busy flag and one
console record. -/
theorem c2_duplicate_delivery_single_exchange
    (env : Env) (resp : AuthResponse) (fs : FlowState) (c te v : String)
    (h1 : resp.rtype = "success") (h2 : resp.code = some c)
    (h3 : resp.state = some env.expectedState) (h4 : c ∉ fs.processedCodes)
    (h5 : env.tokenEndpoint = some te) (h6 : env.codeVerifier = some v) :
    (rapidDoubleDelivery env resp fs).trace.exchangeCalls
        = (c, v) :: fs.trace.exchangeCalls
      ∧ handleAuthResponse env resp
          { fs with busy := true, errorMsg := none, processedCodes := c :: fs.processedCodes }
        = { fs with
            busy := false,
            errorMsg := none,
            processedCodes := c :: fs.processedCodes,
            trace := { fs.trace with
                       logs := "[Auth] Duplicate code detected - ignoring."
                                 :: fs.trace.logs } } := by
  have hprefix : correlatePhase env resp fs
      = .ready c v { fs with
                     busy := true,
                     errorMsg := none,
                     processedCodes := c :: fs.processedCodes } := by
    simp [correlatePhase, h2, h3, h4, h5, h6]
  have hsecond : handleAuthResponse env resp
      { fs with busy := true, errorMsg := none, processedCodes := c :: fs.processedCodes }
      = { fs with
          busy := false,
          errorMsg := none,
          processedCodes := c :: fs.processedCodes,
          trace := { fs.trace with
                     logs := "[Auth] Duplicate code detected - ignoring."
                               :: fs.trace.logs } } := by
    simp [handleAuthResponse, h1, correlatePhase, h2, h3, finishTry, logAdd]
  refine ⟨?_, hsecond⟩
  simp only [rapidDoubleDelivery, h1, if_pos, hprefix]
  rw [finishTry_exchangeCalls, exchangePhase_exchangeCalls, hsecond]

/-- C2 witness: a concrete rapid double delivery (here with a failing
exchange environment) makes exactly one exchange call. -/
theorem c2_witness :
    (rapidDoubleDelivery envExchangeFail respOk initFS).trace.exchangeCalls = [("c1", "ver")]
      ∧ handleAuthResponse envExchangeFail respOk
          { initFS with busy := true, errorMsg := none, processedCodes := ["c1"] }
        = { initFS with
            busy := false,
            errorMsg := none,
            processedCodes := ["c1"],
            trace := { initFS.trace with
                       logs := ["[Auth] Duplicate code detected - ignoring."] } } :=
  c2_duplicate_delivery_single_exchange envExchangeFail respOk initFS "c1" "https://tok" "ver"
    (by decide) (by decide) (by decide) (by decide) (by decide) (by decide)

/-!
C4.  State-mismatch rejection (amended).
-/

/-- C4 (amended): every success response whose returned state is not exactly
equal to the expected state is rejected with no token-exchange network call;
when the response carries an authorization code the surfaced failure is the
state-mismatch one, and when the code is absent the missing-code failure
takes precedence. -/
theorem c4_state_mismatch_no_exchange (env : Env) (resp : AuthResponse)
    (fs : FlowState) (h1 : resp.rtype = "success")
    (h2 : resp.state ≠ some env.expectedState) :
    (handleAuthResponse env resp fs).trace.exchangeCalls = fs.trace.exchangeCalls
      ∧ (∀ c, resp.code = some c →
          (handleAuthResponse env resp fs).errorMsg
            = some "Invalid authentication state - possible security issue.")
      ∧ (resp.code = none →
          (handleAuthResponse env resp fs).errorMsg
            = some "No authorization code received from Microsoft.") := by
  cases hc : resp.code with
  | none =>
      refine ⟨?_, ?_, ?_⟩ <;>
        simp [handleAuthResponse, h1, correlatePhase, hc, finishTry, logAdd, jsOr]
  | some c =>
      refine ⟨?_, ?_, ?_⟩ <;>
        simp [handleAuthResponse, h1, correlatePhase, hc, h2, finishTry, logAdd, jsOr]

/-- C4 witness: a concrete mismatched-state response carrying a code is
rejected with the state-mismatch failure and no exchange call. -/
theorem c4_witness :
    (handleAuthResponse envMiss respBadState initFS).trace.exchangeCalls
        = initFS.trace.exchangeCalls
      ∧ (∀ c, respBadState.code = some c →
          (handleAuthResponse envMiss respBadState initFS).errorMsg
            = some "Invalid authentication state - possible security issue.")
      ∧ (respBadState.code = none →
          (handleAuthResponse envMiss respBadState initFS).errorMsg
            = some "No authorization code received from Microsoft.") :=
  c4_state_mismatch_no_exchange envMiss respBadState initFS (by decide) (by decide)

/-!
C8.  Surfacing of protocol-level integrity failures (amended).
-/

/-- C8 (amended): protocol-level integrity failures are rejected before any
network call and logged, but the text surfaced to the user is the thrown
error's own message — `No authorization code received from Microsoft.` for a
missing code and `Invalid authentication state - possible security issue.`
for a state mismatch — not a sanitized generic message (the generic
`Authentication failed. Please try again.` text would appear only for an
empty thrown message). -/
theorem c8_integrity_failure_surfacing (env : Env) (resp : AuthResponse)
    (fs : FlowState) (h1 : resp.rtype = "success") :
    (resp.code = none →
        (handleAuthResponse env resp fs).errorMsg
            = some "No authorization code received from Microsoft."
          ∧ (handleAuthResponse env resp fs).trace.exchangeCalls = fs.trace.exchangeCalls
          ∧ (handleAuthResponse env resp fs).trace.logs
              = "[Auth] Error during authentication:"
                  :: "[Auth] No authorization code in response params:" :: fs.trace.logs)
      ∧ (∀ c, resp.code = some c → resp.state ≠ some env.expectedState →
          (handleAuthResponse env resp fs).errorMsg
              = some "Invalid authentication state - possible security issue."
            ∧ (handleAuthResponse env resp fs).trace.exchangeCalls = fs.trace.exchangeCalls
            ∧ (handleAuthResponse env resp fs).trace.logs
                = "[Auth] Error during authentication:"
                    :: "[Auth] State mismatch:" :: fs.trace.logs) := by
  constructor
  · intro hc
    refine ⟨?_, ?_, ?_⟩ <;>
      simp [handleAuthResponse, h1, correlatePhase, hc, finishTry, logAdd, jsOr]
  · intro c hc h2
    refine ⟨?_, ?_, ?_⟩ <;>
      simp [handleAuthResponse, h1, correlatePhase, hc, h2, finishTry, logAdd, jsOr]

/-- C8 witness: a concrete missing-code success response surfaces the
missing-code text and logs the detail. -/
theorem c8_witness :
    (({ rtype := "success", code := none, state := some "st7"
      , errParam := none, errDescription := none } : AuthResponse).code = none →
        (handleAuthResponse envMiss
            { rtype := "success", code := none, state := some "st7"
            , errParam := none, errDescription := none } initFS).errorMsg
            = some "No authorization code received from Microsoft."
          ∧ (handleAuthResponse envMiss
              { rtype := "success", code := none, state := some "st7"
              , errParam := none, errDescription := none } initFS).trace.exchangeCalls
              = initFS.trace.exchangeCalls
          ∧ (handleAuthResponse envMiss
              { rtype := "success", code := none, state := some "st7"
              , errParam := none, errDescription := none } initFS).trace.logs
              = "[Auth] Error during authentication:"
                  :: "[Auth] No authorization code in response params:" :: initFS.trace.logs)
      ∧ (∀ c, ({ rtype := "success", code := none, state := some "st7"
               , errParam := none, errDescription := none } : AuthResponse).code = some c →
          ({ rtype := "success", code := none, state := some "st7"
           , errParam := none, errDescription := none } : AuthResponse).state
              ≠ some envMiss.expectedState →
          (handleAuthResponse envMiss
              { rtype := "success", code := none, state := some "st7"
              , errParam := none, errDescription := none } initFS).errorMsg
              = some "Invalid authentication state - possible security issue."
            ∧ (handleAuthResponse envMiss
                { rtype := "success", code := none, state := some "st7"
                , errParam := none, errDescription := none } initFS).trace.exchangeCalls
                = initFS.trace.exchangeCalls
            ∧ (handleAuthResponse envMiss
                { rtype := "success", code := none, state := some "st7"
                , errParam := none, errDescription := none } initFS).trace.logs
                = "[Auth] Error during authentication:"
                    :: "[Auth] State mismatch:" :: initFS.trace.logs) :=
  c8_integrity_failure_surfacing envMiss
    { rtype := "success", code := none, state := some "st7"
    , errParam := none, errDescription := none } initFS (by decide)

/-!
C1.  Roster miss (amended).
-/

/-- C1 (amended): on a roster miss the login handler itself writes no profile
document and revokes the Firebase session via `signOut`, alerts the user —
but the `users/{uid}` record written during the same attempt by the
`AuthProvider`'s `ensureUserDoc` upon observing the sign-in is retained: the
flow never deletes it, so the `users` collection still holds a profile record
for the denied identity when the attempt ends. -/
theorem c1_roster_miss_revokes_session_but_retains_ensure_doc
    (env : Env) (resp : AuthResponse) (fs : FlowState) (c te v : String)
    (idT acT : Option String) (user : MsUser)
    (h1 : resp.rtype = "success") (h2 : resp.code = some c)
    (h3 : resp.state = some env.expectedState) (h4 : c ∉ fs.processedCodes)
    (h5 : env.tokenEndpoint = some te) (h6 : env.codeVerifier = some v)
    (h7 : env.exchangeResult = .tokens idT acT)
    (h8 : (strFalsy idT && strFalsy acT) = false)
    (h9 : env.signInResult = .ok user)
    (h10 : user.uid ≠ "")
    (h11 : strFalsy (user.email.map (fun s => jsToLower (jsTrim s))) = false)
    (h12 : env.roster ((user.email.map (fun s => jsToLower (jsTrim s))).getD "") = none) :
    (handleAuthResponse env resp fs).session = none
      ∧ (handleAuthResponse env resp fs).trace.signOutCalls = fs.trace.signOutCalls + 1
      ∧ (handleAuthResponse env resp fs).trace.profileWrites = fs.trace.profileWrites
      ∧ (handleAuthResponse env resp fs).users
          = storeMerge fs.users user.uid (ensureUserDocFields user env.now)
      ∧ storeGet (handleAuthResponse env resp fs).users user.uid ≠ none
      ∧ (handleAuthResponse env resp fs).trace.alerts
          = ("Access Denied",
             "Account " ++ (user.email.map (fun s => jsToLower (jsTrim s))).getD ""
               ++ " is not in the roster.\nPlease contact your administrator.")
              :: fs.trace.alerts := by
  have hmain : handleAuthResponse env resp fs
      = finishTry (exchangePhase env c v
          { fs with busy := true, errorMsg := none,
                    processedCodes := c :: fs.processedCodes }) := by
    simp [handleAuthResponse, h1, correlatePhase, h2, h3, h4, h5, h6]
  rw [hmain]
  simp [exchangePhase, h7, h8, h9, applyEnsureUserDoc, h10, h11, h12, finishTry,
        storeGet_storeMerge_self]

/-- C1 witness: the concrete roster-miss attempt revokes the session, issues
no profile write of its own, and leaves exactly the `ensureUserDoc` record in
the `users` collection. -/
theorem c1_witness :
    (handleAuthResponse envMiss respOk initFS).session = none
      ∧ (handleAuthResponse envMiss respOk initFS).trace.signOutCalls
          = initFS.trace.signOutCalls + 1
      ∧ (handleAuthResponse envMiss respOk initFS).trace.profileWrites
          = initFS.trace.profileWrites
      ∧ (handleAuthResponse envMiss respOk initFS).users
          = storeMerge initFS.users janeUser.uid (ensureUserDocFields janeUser envMiss.now)
      ∧ storeGet (handleAuthResponse envMiss respOk initFS).users janeUser.uid ≠ none
      ∧ (handleAuthResponse envMiss respOk initFS).trace.alerts
          = ("Access Denied",
             "Account " ++ (janeUser.email.map (fun s => jsToLower (jsTrim s))).getD ""
               ++ " is not in the roster.\nPlease contact your administrator.")
              :: initFS.trace.alerts :=
  c1_roster_miss_revokes_session_but_retains_ensure_doc envMiss respOk initFS
    "c1" "https://tok" "ver" (some "idtok") none janeUser
    (by decide) (by decide) (by decide) (by decide) (by decide) (by decide)
    (by decide) (by decide) (by decide) (by decide) (by decide) (by decide)

/-!
C3.  ProcessedCodeSet lifecycle (amended).
-/

/-- C3 (amended): the code of a delivery is added to the processed-code set
before the exchange and is never removed individually: after a failed
exchange it is still in the set (so a retry with the same code within the
attempt is blocked until a new sign-in attempt clears the set), and when the
exchange and all subsequent processing succeed the whole set — the
successfully exchanged code included — is cleared. -/
theorem c3_processed_codes_lifecycle
    (env : Env) (resp : AuthResponse) (fs : FlowState) (c te v : String)
    (h1 : resp.rtype = "success") (h2 : resp.code = some c)
    (h3 : resp.state = some env.expectedState) (h4 : c ∉ fs.processedCodes)
    (h5 : env.tokenEndpoint = some te) (h6 : env.codeVerifier = some v) :
    (∀ m, env.exchangeResult = .failed m →
        (handleAuthResponse env resp fs).processedCodes = c :: fs.processedCodes)
      ∧ (∀ idT acT user rd,
          env.exchangeResult = .tokens idT acT →
          (strFalsy idT && strFalsy acT) = false →
          env.signInResult = .ok user →
          strFalsy (user.email.map (fun s => jsToLower (jsTrim s))) = false →
          env.roster ((user.email.map (fun s => jsToLower (jsTrim s))).getD "") = some rd →
          (handleAuthResponse env resp fs).processedCodes = []) := by
  have hmain : handleAuthResponse env resp fs
      = finishTry (exchangePhase env c v
          { fs with busy := true, errorMsg := none,
                    processedCodes := c :: fs.processedCodes }) := by
    simp [handleAuthResponse, h1, correlatePhase, h2, h3, h4, h5, h6]
  constructor
  · intro m hm
    rw [hmain]
    simp [exchangePhase, hm, finishTry, logAdd]
  · intro idT acT user rd h7 h8 h9 h11 h12
    rw [hmain]
    simp [exchangePhase, h7, h8, h9, applyEnsureUserDoc, h11, h12, finishTry]

/-- C3 witness: in the concrete failing-exchange run the code stays in the
set; in the concrete roster-hit run the set is cleared. -/
theorem c3_witness :
    (∀ m, envExchangeFail.exchangeResult = .failed m →
        (handleAuthResponse envExchangeFail respOk initFS).processedCodes
          = "c1" :: initFS.processedCodes)
      ∧ (∀ idT acT user rd,
          envExchangeFail.exchangeResult = .tokens idT acT →
          (strFalsy idT && strFalsy acT) = false →
          envExchangeFail.signInResult = .ok user →
          strFalsy (user.email.map (fun s => jsToLower (jsTrim s))) = false →
          envExchangeFail.roster
              ((user.email.map (fun s => jsToLower (jsTrim s))).getD "") = some rd →
          (handleAuthResponse envExchangeFail respOk initFS).processedCodes = []) :=
  c3_processed_codes_lifecycle envExchangeFail respOk initFS "c1" "https://tok" "ver"
    (by decide) (by decide) (by decide) (by decide) (by decide) (by decide)

/-!
C5.  PKCE round trip (spec-modelled builder, exchange from the source).
-/

/-- Helper: when the synchronous phase reaches the exchange, the verifier it
carries is exactly the stored `request.codeVerifier`. -/
theorem correlatePhase_ready_verifier (env : Env) (resp : AuthResponse)
    (fs : FlowState) (c v : String) (fs1 : FlowState)
    (h : correlatePhase env resp fs = .ready c v fs1) :
    env.codeVerifier = some v := by
  unfold correlatePhase at h
  repeat' split at h <;> try simp_all

/-- C5: for every attempt built by the (spec-modelled) PKCE Request Builder,
the code challenge equals the URL-safe base64 encoding of the SHA-256 digest
of the stored code verifier, and whenever the login handler reaches the token
exchange with that stored verifier, the exchange network call carries exactly
that verifier. -/
theorem c5_pkce_challenge_roundtrip (verifier st : String) :
    (buildAuthRequest verifier st).codeChallenge
        = base64UrlEncode (sha256 (strBytes (buildAuthRequest verifier st).codeVerifier))
      ∧ (∀ (env : Env) (resp : AuthResponse) (fs : FlowState) (c v : String)
           (fs1 : FlowState),
          env.codeVerifier = some (buildAuthRequest verifier st).codeVerifier →
          correlatePhase env resp fs = .ready c v fs1 →
          v = (buildAuthRequest verifier st).codeVerifier
            ∧ (exchangePhase env c v fs1).2.trace.exchangeCalls
                = (c, (buildAuthRequest verifier st).codeVerifier)
                    :: fs1.trace.exchangeCalls) := by
  refine ⟨rfl, ?_⟩
  intro env resp fs c v fs1 henv hready
  have hv : env.codeVerifier = some v := correlatePhase_ready_verifier env resp fs c v fs1 hready
  rw [henv] at hv
  have hveq : v = (buildAuthRequest verifier st).codeVerifier := by
    injection hv with h
    exact h.symm
  exact ⟨hveq, by rw [exchangePhase_exchangeCalls, hveq]⟩

/-- The RFC 7636 appendix B test vector: the spec-modelled builder derives
the RFC's expected challenge from its example verifier. -/
theorem pkce_rfc7636_kat :
    (buildAuthRequest "dBjftJeZ4CVP-mB92K27uhbUJU1p1r_wW1gFWFOEjXk" "st7").codeChallenge
      = "E9Melhoa2OwvFrEMTJguCHaoeK1t8URWbuGJSstw-cM" := by
  decide

/-- C5 witness: at the RFC 7636 example verifier, in a concrete environment
that stores it, the concrete delivery reaches the exchange and the exchange
call carries exactly the stored verifier. -/
theorem c5_witness :
    (buildAuthRequest "dBjftJeZ4CVP-mB92K27uhbUJU1p1r_wW1gFWFOEjXk" "st7").codeChallenge
        = base64UrlEncode (sha256 (strBytes
            (buildAuthRequest "dBjftJeZ4CVP-mB92K27uhbUJU1p1r_wW1gFWFOEjXk" "st7").codeVerifier))
      ∧ ("dBjftJeZ4CVP-mB92K27uhbUJU1p1r_wW1gFWFOEjXk"
            = (buildAuthRequest "dBjftJeZ4CVP-mB92K27uhbUJU1p1r_wW1gFWFOEjXk" "st7").codeVerifier
          ∧ (exchangePhase
                { envMiss with
                  codeVerifier := some "dBjftJeZ4CVP-mB92K27uhbUJU1p1r_wW1gFWFOEjXk" }
                "c1" "dBjftJeZ4CVP-mB92K27uhbUJU1p1r_wW1gFWFOEjXk"
                { initFS with busy := true, processedCodes := ["c1"] }).2.trace.exchangeCalls
              = ("c1",
                 (buildAuthRequest "dBjftJeZ4CVP-mB92K27uhbUJU1p1r_wW1gFWFOEjXk"
                    "st7").codeVerifier)
                  :: ({ initFS with
                        busy := true,
                        processedCodes := ["c1"] } : FlowState).trace.exchangeCalls) :=
  ⟨(c5_pkce_challenge_roundtrip "dBjftJeZ4CVP-mB92K27uhbUJU1p1r_wW1gFWFOEjXk" "st7").1,
   (c5_pkce_challenge_roundtrip "dBjftJeZ4CVP-mB92K27uhbUJU1p1r_wW1gFWFOEjXk" "st7").2
     { envMiss with codeVerifier := some "dBjftJeZ4CVP-mB92K27uhbUJU1p1r_wW1gFWFOEjXk" }
     respOk initFS "c1" "dBjftJeZ4CVP-mB92K27uhbUJU1p1r_wW1gFWFOEjXk"
     { initFS with busy := true, processedCodes := ["c1"] }
     (by decide) (by decide)⟩

/-!
C6.  Roster-hit profile write (amended).
-/

/-- C6 (amended): the roster-hit profile write is a merge: every stored field
outside the written set `{uid, email, displayName, role, grade, guildId,
lastLoginAt}` is unchanged; `lastLoginAt` is always set to the current server
timestamp; `role` is taken from the roster record, defaulting to `student`
exactly when the roster's role field is absent or empty; `grade` defaults to
the empty string; and `displayName` is set to the roster name, else the
identity's display name, else the empty string — so an existing stored
display name is **not** preserved when the roster name field is empty. -/
theorem c6_profile_merge_semantics (existing : Doc) (u : MsUser) (email : String)
    (rd : RosterData) (now : Nat) :
    (∀ k, k ∉ ["uid", "email", "displayName", "role", "grade", "guildId", "lastLoginAt"] →
        docGet (mergeWrite existing (profileWriteFields u email rd now)) k
          = docGet existing k)
      ∧ docGet (mergeWrite existing (profileWriteFields u email rd now)) "lastLoginAt"
          = some (.ts now)
      ∧ (∀ r, rd.role = some r → r ≠ "" →
          docGet (mergeWrite existing (profileWriteFields u email rd now)) "role"
            = some (.str r))
      ∧ ((rd.role = none ∨ rd.role = some "") →
          docGet (mergeWrite existing (profileWriteFields u email rd now)) "role"
            = some (.str "student"))
      ∧ docGet (mergeWrite existing (profileWriteFields u email rd now)) "grade"
          = some (.str (jsOr rd.grade ""))
      ∧ docGet (mergeWrite existing (profileWriteFields u email rd now)) "displayName"
          = some (.str (jsOr rd.name (jsOr u.displayName ""))) := by
  refine ⟨?_, ?_, ?_, ?_, ?_, ?_⟩
  · intro k hk
    apply docGet_mergeWrite_not_written
    simpa [profileWriteFields] using hk
  · simp [profileWriteFields, mergeWrite, docGet_docSet_self, docGet_docSet_ne]
  · intro r hr hne
    simp [profileWriteFields, mergeWrite, docGet_docSet_self, docGet_docSet_ne, jsOr, hr, hne]
  · intro hr
    rcases hr with hr | hr <;>
      simp [profileWriteFields, mergeWrite, docGet_docSet_self, docGet_docSet_ne, jsOr, hr]
  · simp [profileWriteFields, mergeWrite, docGet_docSet_self, docGet_docSet_ne]
  · simp [profileWriteFields, mergeWrite, docGet_docSet_self, docGet_docSet_ne]

/-- C6 witness: in a concrete merge — stored fields `displayName: "Rich
Name"` and `xp: "120"`, roster record `{name: "", role: "teacher", grade:
"7"}`, identity without a display name — the foreign field `xp` survives,
`lastLoginAt` is refreshed, `role` comes from the roster, and the stored
display name is replaced by the empty roster-derived name. -/
theorem c6_witness :
    docGet
        (mergeWrite [("displayName", .str "Rich Name"), ("xp", .str "120")]
          (profileWriteFields { uid := "u1", email := some "j@x", displayName := none }
            "j@x" { name := some "", role := some "teacher", grade := some "7" } 3))
        "xp" = some (.str "120")
      ∧ docGet
          (mergeWrite [("displayName", .str "Rich Name"), ("xp", .str "120")]
            (profileWriteFields { uid := "u1", email := some "j@x", displayName := none }
              "j@x" { name := some "", role := some "teacher", grade := some "7" } 3))
          "lastLoginAt" = some (.ts 3)
      ∧ docGet
          (mergeWrite [("displayName", .str "Rich Name"), ("xp", .str "120")]
            (profileWriteFields { uid := "u1", email := some "j@x", displayName := none }
              "j@x" { name := some "", role := some "teacher", grade := some "7" } 3))
          "role" = some (.str "teacher")
      ∧ docGet
          (mergeWrite [("displayName", .str "Rich Name"), ("xp", .str "120")]
            (profileWriteFields { uid := "u1", email := some "j@x", displayName := none }
              "j@x" { name := some "", role := some "teacher", grade := some "7" } 3))
          "displayName" = some (.str (jsOr (some "") (jsOr none ""))) :=
  ⟨((c6_profile_merge_semantics [("displayName", .str "Rich Name"), ("xp", .str "120")]
      { uid := "u1", email := some "j@x", displayName := none } "j@x"
      { name := some "", role := some "teacher", grade := some "7" } 3).1
        "xp" (by decide)).trans (by decide),
   (c6_profile_merge_semantics [("displayName", .str "Rich Name"), ("xp", .str "120")]
      { uid := "u1", email := some "j@x", displayName := none } "j@x"
      { name := some "", role := some "teacher", grade := some "7" } 3).2.1,
   (c6_profile_merge_semantics [("displayName", .str "Rich Name"), ("xp", .str "120")]
      { uid := "u1", email := some "j@x", displayName := none } "j@x"
      { name := some "", role := some "teacher", grade := some "7" } 3).2.2.1
        "teacher" rfl (by decide),
   (c6_profile_merge_semantics [("displayName", .str "Rich Name"), ("xp", .str "120")]
      { uid := "u1", email := some "j@x", displayName := none } "j@x"
      { name := some "", role := some "teacher", grade := some "7" } 3).2.2.2.2.2⟩

/-!
C7.  Identity Resolver normalization and NoEmail handling (amended).
-/

/-- C7 (amended): the enhanced login screen normalizes the email by trimming
and then lower-casing and, when the result is empty or absent, signs out the
partially established session before surfacing the NoEmail failure; the
simple variant (`handleLoginSuccess`) only lower-cases — it never trims — and
on a missing email surfaces `No email found` without any sign-out, leaving
the session established. -/
theorem c7_email_normalization_and_no_email
    (env : Env) (resp : AuthResponse) (fs : FlowState) (c te v : String)
    (idT acT : Option String) (user : MsUser)
    (h1 : resp.rtype = "success") (h2 : resp.code = some c)
    (h3 : resp.state = some env.expectedState) (h4 : c ∉ fs.processedCodes)
    (h5 : env.tokenEndpoint = some te) (h6 : env.codeVerifier = some v)
    (h7 : env.exchangeResult = .tokens idT acT)
    (h8 : (strFalsy idT && strFalsy acT) = false)
    (h9 : env.signInResult = .ok user) :
    (strFalsy (user.email.map (fun s => jsToLower (jsTrim s))) = true →
        (handleAuthResponse env resp fs).errorMsg
            = some "No email found in Microsoft account."
          ∧ (handleAuthResponse env resp fs).session = none
          ∧ (handleAuthResponse env resp fs).trace.signOutCalls
              = fs.trace.signOutCalls + 1)
      ∧ (strFalsy (user.email.map (fun s => jsToLower (jsTrim s))) = false →
          (handleAuthResponse env resp fs).trace.rosterReads
            = ((user.email.map (fun s => jsToLower (jsTrim s))).getD "")
                :: fs.trace.rosterReads)
      ∧ (strFalsy (user.email.map (fun s => jsToLower s)) = true →
          (handleLoginSuccess env c fs).errorMsg = some "No email found"
            ∧ (handleLoginSuccess env c fs).trace.signOutCalls = fs.trace.signOutCalls
            ∧ (handleLoginSuccess env c fs).session = some user.uid)
      ∧ (strFalsy (user.email.map (fun s => jsToLower s)) = false →
          (handleLoginSuccess env c fs).trace.rosterReads
            = ((user.email.map (fun s => jsToLower s)).getD "")
                :: fs.trace.rosterReads) := by
  have hmain : handleAuthResponse env resp fs
      = finishTry (exchangePhase env c v
          { fs with busy := true, errorMsg := none,
                    processedCodes := c :: fs.processedCodes }) := by
    simp [handleAuthResponse, h1, correlatePhase, h2, h3, h4, h5, h6]
  refine ⟨?_, ?_, ?_, ?_⟩
  · intro hmail
    rw [hmain]
    by_cases huid : user.uid = "" <;>
      simp [exchangePhase, h7, h8, h9, applyEnsureUserDoc, huid, hmail, finishTry,
            logAdd, jsOr]
  · intro hmail
    rw [hmain]
    cases hrost : env.roster ((user.email.map (fun s => jsToLower (jsTrim s))).getD "") <;>
      by_cases huid : user.uid = "" <;>
        simp [exchangePhase, h7, h8, h9, applyEnsureUserDoc, huid, hmail, hrost,
              finishTry, logAdd]
  · intro hmail
    simp [handleLoginSuccess, h7, h9, hmail, jsOr]
  · intro hmail
    cases hrost : env.roster ((user.email.map (fun s => jsToLower s)).getD "") <;>
      simp [handleLoginSuccess, h7, h9, hmail, hrost, jsOr]

/-- A verified identity whose email carries surrounding whitespace and upper
case. -/
def spaceyUser : MsUser :=
  { uid := "u3", email := some " JANE@X.com ", displayName := some "Jane" }

/-- The sign-in environment producing `spaceyUser`. -/
def envSpacey : Env := { envMiss with signInResult := .ok spaceyUser }

/-- C7 witness: with the whitespace-and-case email, the enhanced flow looks
up the trimmed lower-cased `jane@x.com` while the simple variant looks up the
untrimmed `" jane@x.com "`. -/
theorem c7_witness :
    (strFalsy (spaceyUser.email.map (fun s => jsToLower (jsTrim s))) = true →
        (handleAuthResponse envSpacey respOk initFS).errorMsg
            = some "No email found in Microsoft account."
          ∧ (handleAuthResponse envSpacey respOk initFS).session = none
          ∧ (handleAuthResponse envSpacey respOk initFS).trace.signOutCalls
              = initFS.trace.signOutCalls + 1)
      ∧ (strFalsy (spaceyUser.email.map (fun s => jsToLower (jsTrim s))) = false →
          (handleAuthResponse envSpacey respOk initFS).trace.rosterReads
            = ((spaceyUser.email.map (fun s => jsToLower (jsTrim s))).getD "")
                :: initFS.trace.rosterReads)
      ∧ (strFalsy (spaceyUser.email.map (fun s => jsToLower s)) = true →
          (handleLoginSuccess envSpacey "c1" initFS).errorMsg = some "No email found"
            ∧ (handleLoginSuccess envSpacey "c1" initFS).trace.signOutCalls
                = initFS.trace.signOutCalls
            ∧ (handleLoginSuccess envSpacey "c1" initFS).session = some spaceyUser.uid)
      ∧ (strFalsy (spaceyUser.email.map (fun s => jsToLower s)) = false →
          (handleLoginSuccess envSpacey "c1" initFS).trace.rosterReads
            = ((spaceyUser.email.map (fun s => jsToLower s)).getD "")
                :: initFS.trace.rosterReads) :=
  c7_email_normalization_and_no_email envSpacey respOk initFS "c1" "https://tok" "ver"
    (some "idtok") none spaceyUser
    (by decide) (by decide) (by decide) (by decide) (by decide) (by decide)
    (by decide) (by decide) (by decide)

/-!
C10.  Empty-email CSV rows are excluded before processing.
-/

/-- C10: a CSV row whose email is empty after trimming and lower-casing is
excluded by the loader before processing: the whole run — final store and all
counters, in every mode and with or without dry-run — is identical to the run
on the same input with that row removed. -/
theorem c10_empty_email_rows_excluded (mode : Mode) (dryRun : Bool) (now : Nat)
    (s : Store) (pre post : List CsvRow) (bad : CsvRow)
    (h : normEmail bad.email = "") :
    runImport mode dryRun now s (pre ++ bad :: post)
      = runImport mode dryRun now s (pre ++ post) := by
  have hrows : loadRows (pre ++ bad :: post) = loadRows (pre ++ post) := by
    simp [loadRows, toDoc, h]
  simp [runImport, hrows]

/-- C10 witness: a concrete whitespace-email row changes nothing about a
concrete run. -/
theorem c10_witness :
    normEmail (some "   ") = ""
      ∧ runImport .skipExisting false 3 []
          [ { email := some " A@B.C ", name := some "Ann", role := some "", grade := some "5" }
          , { email := some "   ", name := some "X", role := none, grade := none } ]
        = runImport .skipExisting false 3 []
          [ { email := some " A@B.C ", name := some "Ann", role := some "", grade := some "5" } ] :=
  ⟨by decide,
   c10_empty_email_rows_excluded .skipExisting false 3 []
     [ { email := some " A@B.C ", name := some "Ann", role := some "", grade := some "5" } ]
     [] { email := some "   ", name := some "X", role := none, grade := none } (by decide)⟩

end LR
